import Mathlib

/-!
Verification of the Convenient Discussions worker-side parsing pipeline.

The development shallowly embeds the worker code of the repository:
* `CommentSkeleton.js` — the `CommentSkeleton` constructor (comment records,
  highlightability, levels, heading handling) and `getSection`;
* the worker entry point (bundled at the end of `modal.js`) — the message
  handler (`setAlarm` / `removeAlarm` / `parse`), the per-signature
  construction loop of `parse()`, and the serialization / `postMessage` step.

`Parser.js`, `SectionSkeleton.js` and `timestamp.js` are not part of the
source tree; the functions the worker takes from them (`collectParts`,
`removeNestedParts`, `encloseInlineParts`, `filterParts`,
`replaceListsWithItems`, `getLevelsUpTree`, `findSignatures`, `findHeadings`,
`createSection`, the threading resolver and the comment-anchor registry) are
modelled abstractly, as fields of `Parser` / `WorkerEnv` records, or from the
spec where the spec pins their behaviour down.
-/

namespace CD

/-- A DOM element as observed by the worker code under verification: the
code reads `tagName`, `classList` and the `style` attribute
(`CommentSkeleton.js` lines 114–118).  `styleAttr = none` models a missing
`style` attribute (JS `getAttribute` returning `null`; the regexp test on
`null` is false since the string `"null"` does not match). -/
structure Element where
  tagName : String
  classList : List String
  styleAttr : Option String
deriving DecidableEq, Repr

/-- Drop leading ASCII spaces; used to model the ` *` piece of the
float-style regexp. -/
def skipSpaces : List Char → List Char
  | ' ' :: rest => skipSpaces rest
  | cs => cs

/-- Does the JS regexp `/float: *(?:left|right)/` match starting at this
position: the literal `float:`, then zero or more spaces, then `left`
or `right`. -/
def floatMatchAt (cs : List Char) : Bool :=
  if "float:".toList.isPrefixOf cs then
    let rest := skipSpaces (cs.drop 6)
    "left".toList.isPrefixOf rest || "right".toList.isPrefixOf rest
  else
    false

/-- The unanchored JS regexp test `/float: *(?:left|right)/.test(s)`:
some suffix of `s` matches at its start. -/
def testFloatRegexp (s : String) : Bool :=
  s.toList.tails.any floatMatchAt

/-- The JS regexp test `/^H[1-6]$/.test(t)`. -/
def isHeadingTag (t : String) : Bool :=
  t == "H1" || t == "H2" || t == "H3" || t == "H4" || t == "H5" || t == "H6"

/-- The JS regexp match `t.match(/^H([1-6])$/)` reduced to the captured
digit: `some d` on `H1`–`H6`, `none` otherwise (`CommentSkeleton.js`
line 162). -/
def headingDepth (t : String) : Option Nat :=
  if t == "H1" then some 1
  else if t == "H2" then some 2
  else if t == "H3" then some 3
  else if t == "H4" then some 4
  else if t == "H5" then some 5
  else if t == "H6" then some 6
  else none

/-- The `isHighlightable` predicate of the `CommentSkeleton` constructor
(`CommentSkeleton.js` lines 114–118): not a heading element, carrying none
of the configured unhighlightable classes, and without an explicit float
style. -/
def isHighlightable (unhighlightableClasses : List String) (el : Element) : Bool :=
  !isHeadingTag el.tagName &&
  !unhighlightableClasses.any (fun name => el.classList.contains name) &&
  !(match el.styleAttr with
    | some s => testFloatRegexp s
    | none => false)

/-- A comment part as produced by the parser's part-collection pipeline:
the worker code reads `part.node` and `part.isHeading`
(`CommentSkeleton.js` lines 112, 139, 154, 162).  The two fields are kept
independent because `Parser.js`, which creates parts, is not in the source
tree. -/
structure Part where
  node : Element
  isHeading : Bool
deriving DecidableEq, Repr

/-- A signature object as consumed by the `CommentSkeleton` constructor
(`CommentSkeleton.js` lines 31, 61–98): its element plus the fields copied
into the comment record.  Dates are abstracted to integers (timestamps);
`date = none` models a null/absent parsed date. -/
structure Signature where
  element : Element
  date : Option Int
  timestampText : String
  authorName : String
  anchor : Option String
  isUnsigned : Bool
deriving DecidableEq, Repr

/-- The `cd.g` fields read by the comment-construction code:
`UNHIGHLIGHTABLE_ELEMENTS_CLASSES` (`CommentSkeleton.js` line 116) and
`CURRENT_USER_NAME` (line 82).  Both are supplied by the host in the `g`
payload of every parse request (`navPanel.js` lines 157–158). -/
structure Globals where
  unhighlightableElementsClasses : List String
  currentUserName : String
deriving DecidableEq, Repr

/-- The parser operations invoked by the `CommentSkeleton` constructor
(`CommentSkeleton.js` lines 31–46, 196–198).  Modelled from the spec:
`Parser.js` is not in the source tree, so the part-collection pipeline
(spec §4.3 steps 1–6) and the indentation-ancestor walk (spec §4.4) are
abstract functions; no claim under verification depends on their
internals.  `getLevelsUpTree` takes the direction string (`"top"` /
`"bottom"`) exactly as in the source and returns the list of qualifying
indentation-container ancestors. -/
structure Parser where
  collectParts : Element → List Part
  removeNestedParts : List Part → List Part
  encloseInlineParts : List Part → Element → List Part
  filterParts : List Part → List Part
  replaceListsWithItems : List Part → Element → List Part
  getLevelsUpTree : Element → String → List Element

/-- Errors a JS computation in the worker can raise: `cdError` models a
thrown `CdError` (`CommentSkeleton.js` line 132), `typeError` models a
native TypeError such as reading a property of `undefined`. -/
inductive JsError where
  | cdError
  | typeError
deriving DecidableEq, Repr

/-- The comment record built by the `CommentSkeleton` constructor; field
names follow the source (`section`-related fields are added later, during
serialization).  `openingSectionOfLevel = none` models the property being
left `undefined`/`null`. -/
structure Comment where
  id : Nat
  date : Option Int
  timestamp : String
  authorName : String
  own : Bool
  anchor : Option String
  isUnsigned : Bool
  parts : List Part
  elements : List Element
  highlightables : List Element
  level : Nat
  followsHeading : Bool
  isOpeningSection : Bool
  openingSectionOfLevel : Option Nat
deriving DecidableEq, Repr

/-- The part-collection pipeline of the `CommentSkeleton` constructor
(`CommentSkeleton.js` lines 31–46): collect, remove nested, enclose
inline runs, filter, reverse into document order, then replace lists with
items. -/
def processedParts (parser : Parser) (signature : Signature) : List Part :=
  parser.replaceListsWithItems
    ((parser.filterParts
      (parser.encloseInlineParts
        (parser.removeNestedParts
          (parser.collectParts signature.element))
        signature.element)).reverse)
    signature.element

/-- The elements of the processed parts (`CommentSkeleton.js` line 112). -/
def processedElements (parser : Parser) (signature : Signature) : List Element :=
  (processedParts parser signature).map (fun part => part.node)

/-- The highlightable elements of the processed parts
(`CommentSkeleton.js` line 128). -/
def processedHighlightables (parser : Parser) (g : Globals) (signature : Signature) :
    List Element :=
  (processedElements parser signature).filter
    (isHighlightable g.unhighlightableElementsClasses)

/-- The `'top'`-direction ancestor walk of `setLevels`
(`CommentSkeleton.js` line 196): from the first highlightable element. -/
def topWalk (parser : Parser) (h0 : Element) : List Element :=
  parser.getLevelsUpTree h0 "top"

/-- The `'bottom'`-direction ancestor walk of `setLevels`
(`CommentSkeleton.js` lines 197–199): from the last highlightable element
when the comment has more than one element, otherwise the top walk is
reused.  `h0 :: hrest` is the non-empty highlightables list. -/
def bottomWalk (parser : Parser) (signature : Signature) (h0 : Element)
    (hrest : List Element) : List Element :=
  if (processedElements parser signature).length > 1 then
    parser.getLevelsUpTree ((h0 :: hrest).getLastD h0) "bottom"
  else
    topWalk parser h0

/-- The comment level (`CommentSkeleton.js` line 207): the minimum of the
lengths of the two ancestor walks.  The class tagging `setLevels` performs
on the walked ancestor elements (lines 208–215) mutates fields no claim
observes and is omitted. -/
def commentLevel (parser : Parser) (signature : Signature) (h0 : Element)
    (hrest : List Element) : Nat :=
  min (topWalk parser h0).length (bottomWalk parser signature h0 hrest).length

/-- The comment's final parts list (`CommentSkeleton.js` lines 139–153):
when the first processed part is a heading and the level is nonzero, the
heading part is spliced out; otherwise the processed parts are kept.
`p0` is the first processed part. -/
def splicedParts (parser : Parser) (signature : Signature) (level : Nat)
    (p0 : Part) : List Part :=
  if p0.isHeading && decide (level ≠ 0) then
    (processedParts parser signature).drop 1
  else
    processedParts parser signature

/-- The comment's final elements list: spliced in step with
`splicedParts` (`CommentSkeleton.js` line 149). -/
def splicedElements (parser : Parser) (signature : Signature) (level : Nat)
    (p0 : Part) : List Element :=
  if p0.isHeading && decide (level ≠ 0) then
    (processedElements parser signature).drop 1
  else
    processedElements parser signature

/-- The `CommentSkeleton` constructor (`CommentSkeleton.js` lines 27–167).
`numComments` is `cd.comments.length` at construction time (line 54).

* If no element is highlightable, a `CdError` is thrown (lines 131–133).
* `addAttributes` (lines 174–184) only mutates classes/attributes of the
  part elements, which no claim observes, and is omitted for that reason.
* Lines 139–153: `followsHeading` is assigned `true` in both branches of
  the `if` (lines 145 and 152); when the first part is a heading and the
  level is nonzero, the heading part is spliced out of `parts` and
  `elements` (`splicedParts` / `splicedElements`).
* Lines 154–166: `isOpeningSection` is set from the (possibly spliced)
  first part; reading `this.parts[0].isHeading` on an empty list would be
  a TypeError, modelled by the `typeError` branches.

On success the returned record's `id` is `numComments`. -/
def mkComment (parser : Parser) (g : Globals) (numComments : Nat)
    (signature : Signature) : Except JsError Comment :=
  match processedHighlightables parser g signature with
  | [] => .error .cdError
  | h0 :: hrest =>
    match (processedParts parser signature).head? with
    | none => .error .typeError
    | some p0 =>
      match (splicedParts parser signature
          (commentLevel parser signature h0 hrest) p0).head? with
      | none => .error .typeError
      | some q0 =>
        .ok
          { id := numComments
            date := signature.date
            timestamp := signature.timestampText
            authorName := signature.authorName
            own := signature.authorName == g.currentUserName
            anchor := signature.anchor
            isUnsigned := signature.isUnsigned
            parts := splicedParts parser signature
              (commentLevel parser signature h0 hrest) p0
            elements := splicedElements parser signature
              (commentLevel parser signature h0 hrest) p0
            highlightables := h0 :: hrest
            level := commentLevel parser signature h0 hrest
            followsHeading := true
            isOpeningSection := q0.isHeading
            openingSectionOfLevel :=
              if q0.isHeading then headingDepth q0.node.tagName else none }

/-- A section record as used by the worker.  Modelled from the spec:
`SectionSkeleton.js` is not in the source tree.  Spec §3: id, headline,
anchor, heading level, and the ordered comment list; comments are stored
by id, which stands for the JS object references (ids are unique within a
parse). -/
structure Section where
  id : Nat
  headline : String
  anchor : String
  level : Nat
  comments : List Nat
deriving DecidableEq, Repr

/-- `CommentSkeleton.getSection` (`CommentSkeleton.js` lines 224–232): copy
the sections list, reverse it, and return the first section whose
`comments` list contains this comment (JS `Array.prototype.includes` on
object references, rendered as membership of the comment's id), or `null`
when none does. -/
def getSection (sections : List Section) (c : Comment) : Option Section :=
  sections.reverse.find? (fun s => s.comments.contains c.id)

/-- One step of the per-signature loop of `parse()` (worker entry point,
bundled in `modal.js`, lines 1315–1326): construct the comment via
`parser.createComment` — which instantiates the context's comment class,
i.e. the `CommentSkeleton` constructor (`modal.js` line 1267) — with
`cd.comments.length` as the next id; push it on success (the `comment.id
!== undefined` guard always holds on success since the constructor always
assigns `id`), and on any exception leave the accumulated list unchanged
(the `catch` block only logs). -/
def pushComment (parser : Parser) (g : Globals) (acc : List Comment)
    (signature : Signature) : List Comment :=
  match mkComment parser g acc.length signature with
  | .ok c => acc ++ [c]
  | .error _ => acc

/-- The per-signature loop of `parse()` over all signatures, starting from
the reset `cd.comments = []` (`modal.js` lines 1299, 1315–1326). -/
def processSignatures (parser : Parser) (g : Globals)
    (signatures : List Signature) : List Comment :=
  signatures.foldl (pushComment parser g) []

/-- The parse request payload (`navPanel.js` lines 142–172): page text, the
`g` globals bundle, and the configuration strings.  The worker overwrites
its `cd.g` from the message (`Object.assign(cd.g, message.g)`, where the
message always carries every global the pipeline reads) and re-creates the
parser from them, so the request fully determines one parse.  The fields
consumed only by code outside the source tree (timestamp grammar,
selectors, the eval'd checker) are summarized by `config`. -/
structure ParseRequest where
  text : String
  g : Globals
  config : List (String × String)
deriving DecidableEq, Repr

/-- The worker-side operations of a parse that live in modules outside the
source tree.  Modelled from the spec: DOM building (§4.1) and the
timestamp/signature scan (§4.2) are deterministic functions of the request
(`buildParser`, `findSignatures`, `findHeadings`); section construction
(§4.4) can fail per heading and assigns `cd.sections.length` as the id
(`createSection`, mirroring the `section.id !== undefined` push guard in
`modal.js` lines 1331–1342). -/
structure WorkerEnv where
  buildParser : ParseRequest → Parser
  findSignatures : ParseRequest → List Signature
  findHeadings : ParseRequest → List Element
  createSection : ParseRequest → Nat → Element → Except JsError Section

/-- One step of the per-heading loop of `parse()` (`modal.js` lines
1331–1342): push the section on success, skip it on an exception. -/
def pushSection (env : WorkerEnv) (req : ParseRequest) (acc : List Section)
    (heading : Element) : List Section :=
  match env.createSection req acc.length heading with
  | .ok s => acc ++ [s]
  | .error _ => acc

/-- The per-heading loop of `parse()` over all headings, starting from the
reset `cd.sections = []`. -/
def processHeadings (env : WorkerEnv) (req : ParseRequest)
    (headings : List Element) : List Section :=
  headings.foldl (pushSection env req) []

/-- The minimal section reference stored on a serialized comment
(`modal.js` lines 1350–1353): headline and anchor of the enclosing
section. -/
structure WireSectionRef where
  headline : String
  anchor : String
deriving DecidableEq, Repr

/-- A comment record in wire form, as posted to the host (`modal.js` lines
1345–1370): the scalar fields of the comment survive; `parts`, `elements`,
`highlightables` and the resolver callbacks are deleted; `sectionRef`
models the `section` property (`none` = property never assigned);
`targetCommentAuthorName` and `toMe` are present only for comments with a
target (parent) comment. -/
structure WireComment where
  id : Nat
  date : Option Int
  timestamp : String
  authorName : String
  own : Bool
  anchor : Option String
  isUnsigned : Bool
  level : Nat
  followsHeading : Bool
  isOpeningSection : Bool
  openingSectionOfLevel : Option Nat
  sectionRef : Option WireSectionRef
  targetCommentAuthorName : Option String
  toMe : Option Bool
deriving DecidableEq, Repr

/-- The index of the comment a reply targets.  Modelled from the spec: the
threading resolver (`comment.getChildren()`, `modal.js` line 1346) is not
in the source tree; spec §4.5 resolves a comment at level N to the nearest
preceding comment at level N−1, and no parent when none exists (in
particular for level-0 comments). -/
def targetIndex (comments : List Comment) (i : Nat) : Option Nat :=
  (List.range i).reverse.find? (fun j =>
    match comments.get? j, comments.get? i with
    | some cj, some ci => cj.level + 1 == ci.level
    | _, _ => false)

/-- Serialization of one comment (`modal.js` lines 1345–1370): attach the
enclosing section's headline/anchor when `getSection()` finds one, attach
the target comment's author name and `toMe` (whether the target is the
current user's own comment) when a target exists, and keep only the plain
data fields. -/
def toWire (sections : List Section) (comments : List Comment) (i : Nat)
    (c : Comment) : WireComment :=
  let target := (targetIndex comments i).bind (fun j => comments.get? j)
  { id := c.id
    date := c.date
    timestamp := c.timestamp
    authorName := c.authorName
    own := c.own
    anchor := c.anchor
    isUnsigned := c.isUnsigned
    level := c.level
    followsHeading := c.followsHeading
    isOpeningSection := c.isOpeningSection
    openingSectionOfLevel := c.openingSectionOfLevel
    sectionRef := (getSection sections c).map (fun s => ⟨s.headline, s.anchor⟩)
    targetCommentAuthorName := target.map (fun t => t.authorName)
    toMe := target.map (fun t => t.own) }

/-- The full `parse()` pipeline (`modal.js` lines 1298–1384): reset state,
find signatures, build comments, build sections, serialize.  Returns the
internal comments list, the sections list, and the wire-form comment
list. -/
def parsePipeline (env : WorkerEnv) (req : ParseRequest) :
    List Comment × List Section × List WireComment :=
  let parser := env.buildParser req
  let comments := processSignatures parser req.g (env.findSignatures req)
  let sections := processHeadings env req (env.findHeadings req)
  (comments, sections, comments.mapIdx (fun i c => toWire sections comments i c))

/-- The worker's timer system: a fresh-handle counter and the armed, not
yet fired or cleared timeouts with their intervals. -/
structure TimerSys where
  nextHandle : Nat
  pending : List (Nat × Nat)
deriving DecidableEq, Repr

/-- JS `clearTimeout(h)`: cancels the timeout with that handle; a no-op on
`undefined` (the initial value of `alarmTimeout`) or a stale handle. -/
def clearTimeoutSys (ts : TimerSys) (h : Option Nat) : TimerSys :=
  match h with
  | none => ts
  | some hh => { ts with pending := ts.pending.filter (fun t => t.1 ≠ hh) }

/-- JS `setTimeout(callback, interval)`: arms a fresh timeout and returns
its handle. -/
def setTimeoutSys (ts : TimerSys) (interval : Nat) : TimerSys × Nat :=
  ({ nextHandle := ts.nextHandle + 1, pending := ts.pending ++ [(ts.nextHandle, interval)] },
    ts.nextHandle)

/-- The worker's module-level mutable state (worker entry point in
`modal.js`): the per-parse collections `cd.comments` and `cd.sections`
(lines 1299–1300), the comment-anchor registry reset by
`resetCommentAnchors()` (line 1301; the registry itself lives in the
missing `timestamp.js` — modelled from the spec as the set of anchors
registered during the parse), the `cd.g` bundle assigned from each parse
message, the timer system with the `alarmTimeout` variable (line 1278),
and the `firstRun` logging latch (line 1264). -/
structure WorkerState where
  comments : List Comment
  sections : List Section
  commentAnchors : List String
  g : Option Globals
  timers : TimerSys
  alarmTimeout : Option Nat
  firstRun : Bool
deriving DecidableEq, Repr

/-- The worker state at worker creation. -/
def initState : WorkerState :=
  { comments := []
    sections := []
    commentAnchors := []
    g := none
    timers := { nextHandle := 0, pending := [] }
    alarmTimeout := none
    firstRun := true }

/-- Messages from the host to the worker (`modal.js` lines 1400–1408,
`navPanel.js` lines 49–63, 142–172). -/
inductive HostMessage where
  | setAlarm (interval : Nat)
  | removeAlarm
  | parseReq (req : ParseRequest)
deriving DecidableEq, Repr

/-- Events the worker reacts to: a host message, or an armed timeout
firing. -/
inductive WorkerEvent where
  | msg (m : HostMessage)
  | timerFire (h : Nat)
deriving DecidableEq, Repr

/-- Messages from the worker to the host: the alarm's `wakeUp`
notification (`modal.js` line 1289) and the parse response (`modal.js`
lines 1376–1379).  The parse response constructor mirrors the posted
object literal `\x7b type: 'parse', comments: cd.comments \x7d`: the
`sections` component is an `Option` so that the presence or absence of a
`sections` key in the posted object is part of the model; the source
builds the message without one. -/
inductive OutMessage where
  | wakeUp
  | parseResp (comments : List WireComment) (sections : Option (List Section))
deriving DecidableEq, Repr

/-- One step of the worker (`onMessageFromWindow`, `modal.js` lines
1392–1442, plus timeout firing):

* a firing timeout posts `wakeUp` and is spent (`modal.js` lines
  1288–1290);
* any host message clears the `firstRun` latch (lines 1395–1398; the
  `console.debug` call is not part of the host-visible message stream and
  is omitted);
* `setAlarm` clears the previously armed timeout, then arms a new one and
  stores its handle (lines 1286–1291);
* `removeAlarm` clears the armed timeout (line 1405; the `alarmTimeout`
  variable keeps the stale handle, as in the source);
* a parse request overwrites `cd.g` from the message (the
  `Object.assign(cd.g, message.g)` merge coincides with overwriting on
  the fields of `Globals` because the host sends all of them in every
  request, `navPanel.js` lines 145–161), resets the per-parse state, runs
  the pipeline and posts exactly one response.  The anchor registry holds
  the anchors of the parse's comments (modelled from the spec §6: anchors
  are registered per comment during the parse). -/
def handleEvent (env : WorkerEnv) (s : WorkerState) (ev : WorkerEvent) :
    WorkerState × List OutMessage :=
  match ev with
  | .timerFire h =>
    if s.timers.pending.any (fun t => t.1 == h) then
      ({ s with timers := { s.timers with
          pending := s.timers.pending.filter (fun t => t.1 ≠ h) } }, [.wakeUp])
    else
      (s, [])
  | .msg m =>
    let s0 := { s with firstRun := false }
    match m with
    | .setAlarm interval =>
      let cleared := clearTimeoutSys s0.timers s0.alarmTimeout
      let armed := setTimeoutSys cleared interval
      ({ s0 with timers := armed.1, alarmTimeout := some armed.2 }, [])
    | .removeAlarm =>
      ({ s0 with timers := clearTimeoutSys s0.timers s0.alarmTimeout }, [])
    | .parseReq req =>
      let result := parsePipeline env req
      ({ s0 with
          comments := result.1
          sections := result.2.1
          commentAnchors := result.1.filterMap (fun c => c.anchor)
          g := some req.g },
        [.parseResp result.2.2 none])

/-- Run the worker over a sequence of events, collecting all posted
messages in order. -/
def runWorker (env : WorkerEnv) : WorkerState → List WorkerEvent →
    WorkerState × List OutMessage
  | s, [] => (s, [])
  | s, ev :: evs =>
    let step := handleEvent env s ev
    let rest := runWorker env step.1 evs
    (rest.1, step.2 ++ rest.2)

/-- Project a successful construction to its comment. -/
def okComment : Except JsError Comment → Option Comment
  | .ok c => some c
  | .error _ => none

/-- The alarm-state invariant maintained by the worker: at most one
timeout is pending, and any pending timeout is the one whose handle is
stored in `alarmTimeout`. -/
def AlarmInv (s : WorkerState) : Prop :=
  s.timers.pending.length ≤ 1 ∧ ∀ t ∈ s.timers.pending, s.alarmTimeout = some t.1

instance (s : WorkerState) : Decidable (AlarmInv s) := by
  unfold AlarmInv
  infer_instance

/-! ### Concrete instances

Sample elements, parts, signatures, parsers and environments used by the
counterexamples and witnesses below. -/

/-- A level-2 heading element. -/
def sampleHeading : Element := ⟨"H2", [], none⟩

/-- A plain paragraph element. -/
def sampleParagraph : Element := ⟨"P", [], none⟩

/-- A right-floated block element. -/
def sampleFloatDiv : Element := ⟨"DIV", [], some "float:right"⟩

/-- The heading as a part, flagged `isHeading`. -/
def headingPart : Part := ⟨sampleHeading, true⟩

/-- The paragraph as a part. -/
def paragraphPart : Part := ⟨sampleParagraph, false⟩

/-- The floated block as a part. -/
def floatPart : Part := ⟨sampleFloatDiv, false⟩

/-- Sample globals: one configured unhighlightable class, current user
`Bob`. -/
def sampleGlobals : Globals := ⟨["cd-unhighlightable"], "Bob"⟩

/-- A sample signature by `Alice` anchored at a paragraph. -/
def sampleSignature : Signature :=
  ⟨sampleParagraph, none, "10:00, 1 January 2020 (UTC)", "Alice", some "Alice-a", false⟩

/-- A signature whose element is the floated block, used to produce a
comment with no highlightable fragment. -/
def floatSignature : Signature :=
  ⟨sampleFloatDiv, none, "11:00, 1 January 2020 (UTC)", "Carol", some "Carol-a", false⟩

/-- A parser whose part-collection pipeline returns a fixed list for every
signature element (in collected, i.e. reverse-document, order), with the
intermediate normalization stages acting as the identity, and a fixed
ancestor walk. -/
def constParser (collected : List Part) (walk : Element → String → List Element) :
    Parser :=
  { collectParts := fun _ => collected
    removeNestedParts := fun ps => ps
    encloseInlineParts := fun ps _ => ps
    filterParts := fun ps => ps
    replaceListsWithItems := fun ps _ => ps
    getLevelsUpTree := walk }

/-- An ancestor walk that finds no indentation containers (level 0). -/
def zeroWalk : Element → String → List Element := fun _ _ => []

/-- A parser collecting a heading followed (in document order) by a
paragraph, at level 0: processed parts are `[headingPart,
paragraphPart]`. -/
def headedParser : Parser := constParser [paragraphPart, headingPart] zeroWalk

/-- The same collected parts as `headedParser` but with one indentation
container around both walks (level 1). -/
def headedParser1 : Parser :=
  constParser [paragraphPart, headingPart] (fun _ _ => [sampleParagraph])

/-- A parser collecting a single paragraph part at level 0. -/
def plainParser : Parser := constParser [paragraphPart] zeroWalk

/-- A parser whose collected parts depend on the signature element: the
floated block for the float signature, a paragraph otherwise.  Used to mix
failing and succeeding signatures in one parse. -/
def mixedParser : Parser :=
  { collectParts := fun el =>
      if el.tagName == "DIV" then [floatPart] else [paragraphPart]
    removeNestedParts := fun ps => ps
    encloseInlineParts := fun ps _ => ps
    filterParts := fun ps => ps
    replaceListsWithItems := fun ps _ => ps
    getLevelsUpTree := zeroWalk }

/-- A parser with two paragraph parts whose top walk finds two indentation
containers and whose bottom walk finds one. -/
def skewedParser : Parser :=
  constParser [paragraphPart, paragraphPart]
    (fun _ dir => if dir == "top" then [sampleParagraph, sampleParagraph]
      else [sampleParagraph])

/-- A worker environment producing one comment (from `sampleSignature` via
`plainParser`) and one section that claims comment 0. -/
def sampleEnv : WorkerEnv :=
  { buildParser := fun _ => plainParser
    findSignatures := fun _ => [sampleSignature]
    findHeadings := fun _ => [sampleHeading]
    createSection := fun _ n _ => .ok ⟨n, "Topic", "Topic", 2, [0]⟩ }

/-- A worker environment whose parses find nothing. -/
def emptyEnv : WorkerEnv :=
  { buildParser := fun _ => plainParser
    findSignatures := fun _ => []
    findHeadings := fun _ => []
    createSection := fun _ n _ => .ok ⟨n, "", "", 2, []⟩ }

/-- A sample parse request. -/
def sampleRequest : ParseRequest :=
  ⟨"<h2>Topic</h2><p>Hello. Alice 10:00, 1 January 2020 (UTC)</p>",
    sampleGlobals, []⟩

/-- The comment `mkComment headedParser sampleGlobals 0 sampleSignature`
produces: a level-0 comment that keeps its heading part. -/
def headedComment : Comment :=
  { id := 0
    date := none
    timestamp := "10:00, 1 January 2020 (UTC)"
    authorName := "Alice"
    own := false
    anchor := some "Alice-a"
    isUnsigned := false
    parts := [headingPart, paragraphPart]
    elements := [sampleHeading, sampleParagraph]
    highlightables := [sampleParagraph]
    level := 0
    followsHeading := true
    isOpeningSection := true
    openingSectionOfLevel := some 2 }

/-- The comment `mkComment skewedParser sampleGlobals 0 sampleSignature`
produces: two paragraph parts, level `min 2 1 = 1`. -/
def skewedComment : Comment :=
  { id := 0
    date := none
    timestamp := "10:00, 1 January 2020 (UTC)"
    authorName := "Alice"
    own := false
    anchor := some "Alice-a"
    isUnsigned := false
    parts := [paragraphPart, paragraphPart]
    elements := [sampleParagraph, sampleParagraph]
    highlightables := [sampleParagraph, sampleParagraph]
    level := 1
    followsHeading := true
    isOpeningSection := false
    openingSectionOfLevel := none }

/-- A comment with id 3, used to exercise `getSection`. -/
def lookupComment : Comment :=
  { id := 3
    date := none
    timestamp := "12:00, 2 January 2020 (UTC)"
    authorName := "Dan"
    own := false
    anchor := some "Dan-a"
    isUnsigned := false
    parts := [paragraphPart]
    elements := [sampleParagraph]
    highlightables := [sampleParagraph]
    level := 0
    followsHeading := true
    isOpeningSection := false
    openingSectionOfLevel := none }

/-- The middle of the three lookup sections. -/
def sectionB : Section := ⟨1, "B", "B", 2, [3]⟩

/-- Three sections in creation order: the first two contain comment 3, the
last does not. -/
def lookupSections : List Section :=
  [⟨0, "A", "A", 2, [1, 3]⟩, sectionB, ⟨2, "C", "C", 3, [4]⟩]

/-! ### Helper lemmas -/

/-- A comment construction with no highlightable element throws a
`CdError` (`CommentSkeleton.js` lines 131–133). -/
theorem mkComment_error_of_no_highlightables (parser : Parser) (g : Globals)
    (n : Nat) (signature : Signature)
    (hh : processedHighlightables parser g signature = []) :
    mkComment parser g n signature = .error .cdError := by
  unfold mkComment
  simp only [hh]

/-- A successfully constructed comment's id is the comment count it was
constructed at (`CommentSkeleton.js` line 54). -/
theorem mkComment_ok_id (parser : Parser) (g : Globals) (n : Nat)
    (signature : Signature) (c : Comment)
    (hok : mkComment parser g n signature = .ok c) : c.id = n := by
  unfold mkComment at hok
  rcases hH : processedHighlightables parser g signature with _ | ⟨h0, hrest⟩ <;>
    simp only [hH] at hok
  · exact absurd hok (by simp)
  rcases hp : (processedParts parser signature).head? with _ | p0 <;>
    simp only [hp] at hok
  · exact absurd hok (by simp)
  rcases hq : (splicedParts parser signature
      (commentLevel parser signature h0 hrest) p0).head? with _ | q0 <;>
    simp only [hq] at hok
  · exact absurd hok (by simp)
  injection hok with h
  subst h
  rfl

/-- Whether (and how) a comment construction fails does not depend on the
comment count passed in: only the final record's `id` does. -/
theorem mkComment_error_irrel (parser : Parser) (g : Globals) (n m : Nat)
    (signature : Signature) (e : JsError)
    (h : mkComment parser g n signature = .error e) :
    mkComment parser g m signature = .error e := by
  unfold mkComment at h ⊢
  rcases hH : processedHighlightables parser g signature with _ | ⟨h0, hrest⟩ <;>
    simp only [hH] at h ⊢
  · exact h
  rcases hp : (processedParts parser signature).head? with _ | p0 <;>
    simp only [hp] at h ⊢
  · exact h
  rcases hq : (splicedParts parser signature
      (commentLevel parser signature h0 hrest) p0).head? with _ | q0 <;>
    simp only [hq] at h ⊢
  · exact h
  · exact absurd h (by simp)

/-- A failing construction leaves the accumulated comments list unchanged
(`modal.js` lines 1315–1326: the `catch` block only logs). -/
theorem pushComment_of_error (parser : Parser) (g : Globals)
    (acc : List Comment) (signature : Signature) (e : JsError)
    (h : mkComment parser g acc.length signature = .error e) :
    pushComment parser g acc signature = acc := by
  unfold pushComment
  simp only [h]

/-- The fold invariant behind id-consecutiveness: if the accumulator's ids
equal their indices, so do the ids of the fold result. -/
theorem processSignatures_go_ids (parser : Parser) (g : Globals) :
    ∀ (signatures : List Signature) (acc : List Comment),
      (∀ j, ∀ hj : j < acc.length, (acc.get ⟨j, hj⟩).id = j) →
      ∀ j, ∀ hj : j < (signatures.foldl (pushComment parser g) acc).length,
        ((signatures.foldl (pushComment parser g) acc).get ⟨j, hj⟩).id = j := by
  intro signatures
  induction signatures with
  | nil => intro acc hacc j hj; exact hacc j hj
  | cons s rest ih =>
    intro acc hacc
    have hstep : ∀ k, ∀ hk : k < (pushComment parser g acc s).length,
        ((pushComment parser g acc s).get ⟨k, hk⟩).id = k := by
      intro k
      unfold pushComment
      cases hm : mkComment parser g acc.length s with
      | error e => intro hk; exact hacc k hk
      | ok c =>
        intro hk
        simp only [List.length_append, List.length_singleton] at hk
        rcases Nat.lt_or_ge k acc.length with hlt | hge
        · simp only [List.get_eq_getElem, List.getElem_append_left hlt]
          simpa only [List.get_eq_getElem] using hacc k hlt
        · have hk2 : k = acc.length := by omega
          subst hk2
          simp only [List.get_eq_getElem, List.getElem_concat_length]
          exact mkComment_ok_id parser g acc.length s c hm
    exact ih (pushComment parser g acc s) hstep

/-- Anatomy of a successful comment construction: the highlightables list
is the non-empty filter result, the level is `commentLevel`, the parts and
elements are the (possibly heading-spliced) processed lists,
`followsHeading` is `true`, and the parts list is non-empty. -/
theorem mkComment_ok_main (parser : Parser) (g : Globals) (n : Nat)
    (signature : Signature) (c : Comment)
    (hok : mkComment parser g n signature = .ok c) :
    ∃ h0 hrest p0,
      processedHighlightables parser g signature = h0 :: hrest ∧
      (processedParts parser signature).head? = some p0 ∧
      c.highlightables = h0 :: hrest ∧
      c.level = commentLevel parser signature h0 hrest ∧
      c.parts = splicedParts parser signature
        (commentLevel parser signature h0 hrest) p0 ∧
      c.elements = splicedElements parser signature
        (commentLevel parser signature h0 hrest) p0 ∧
      c.followsHeading = true ∧
      c.parts ≠ [] := by
  unfold mkComment at hok
  rcases hH : processedHighlightables parser g signature with _ | ⟨h0, hrest⟩ <;>
    simp only [hH] at hok
  · exact absurd hok (by simp)
  rcases hp : (processedParts parser signature).head? with _ | p0 <;>
    simp only [hp] at hok
  · exact absurd hok (by simp)
  rcases hq : (splicedParts parser signature
      (commentLevel parser signature h0 hrest) p0).head? with _ | q0 <;>
    simp only [hq] at hok
  · exact absurd hok (by simp)
  injection hok with h
  subst h
  refine ⟨h0, hrest, p0, rfl, rfl, rfl, rfl, rfl, rfl, rfl, ?_⟩
  show splicedParts parser signature (commentLevel parser signature h0 hrest) p0 ≠ []
  intro he
  rw [he] at hq
  exact absurd hq (by simp)

/-! ### The claims -/

/-- **C2.** For every signature whose comment construction fails — in
particular when none of the collected fragments is highlightable, in which
case the constructor throws — no CommentRecord for that signature appears
in the output, the comments accumulated so far are unchanged, and the
parse continues with the remaining signatures and emits all other
comments: the comments produced from `pre ++ sig :: post` equal the
comments produced from `pre ++ post`. -/
theorem c2_failed_signature_skipped (parser : Parser) (g : Globals)
    (sig : Signature) (pre post : List Signature) :
    (processedHighlightables parser g sig = [] →
      ∀ n, mkComment parser g n sig = .error .cdError) ∧
    ((∃ e, mkComment parser g 0 sig = .error e) →
      processSignatures parser g (pre ++ sig :: post) =
        processSignatures parser g (pre ++ post)) := by
  constructor
  · intro hh n
    exact mkComment_error_of_no_highlightables parser g n sig hh
  · rintro ⟨e, he⟩
    unfold processSignatures
    rw [List.foldl_append, List.foldl_append, List.foldl_cons]
    congr 1
    exact pushComment_of_error parser g _ sig e
      (mkComment_error_irrel parser g 0 _ sig e he)

/-- Witness for C2: the float-only signature has no highlightable
fragment, its construction throws a `CdError`, and parsing a good
signature followed by the failing one yields exactly the comments of the
good signature alone. -/
theorem c2_witness :
    processedHighlightables mixedParser sampleGlobals floatSignature = [] ∧
    mkComment mixedParser sampleGlobals 0 floatSignature = .error .cdError ∧
    processSignatures mixedParser sampleGlobals [sampleSignature, floatSignature] =
      processSignatures mixedParser sampleGlobals [sampleSignature] := by
  refine ⟨rfl, ?_, ?_⟩
  · exact (c2_failed_signature_skipped mixedParser sampleGlobals floatSignature
      [] []).1 rfl 0
  · exact (c2_failed_signature_skipped mixedParser sampleGlobals floatSignature
      [sampleSignature] []).2 ⟨.cdError, by rfl⟩

/-- **C1, counterexample.** The claim says the parse response contains
both the comment records and the section records.  On the code
(`modal.js` lines 1376–1379) the posted object is
`\x7b type: 'parse', comments: cd.comments \x7d` with no `sections` key:
in a concrete run producing one comment and one section, the single
emitted response carries the wire comment and `none` in its sections
component while the parse's section list is non-empty. -/
theorem c1_counterexample :
    (handleEvent sampleEnv initState (.msg (.parseReq sampleRequest))).2 =
      [.parseResp
        [{ id := 0
           date := none
           timestamp := "10:00, 1 January 2020 (UTC)"
           authorName := "Alice"
           own := false
           anchor := some "Alice-a"
           isUnsigned := false
           level := 0
           followsHeading := true
           isOpeningSection := false
           openingSectionOfLevel := none
           sectionRef := some ⟨"Topic", "Topic"⟩
           targetCommentAuthorName := none
           toMe := none }] none] ∧
    (handleEvent sampleEnv initState (.msg (.parseReq sampleRequest))).1.sections =
      [⟨0, "Topic", "Topic", 2, [0]⟩] :=
  ⟨rfl, rfl⟩

/-- **C1, amended.** For every parse request received by the worker, the
worker emits exactly one response message of the form
(type `parse`, comments) containing one wire record per comment produced
by that parse; the section records are not part of the message (each
comment instead carries its enclosing section's headline/anchor). -/
theorem c1_single_response_without_sections (env : WorkerEnv)
    (s : WorkerState) (req : ParseRequest) :
    (handleEvent env s (.msg (.parseReq req))).2 =
      [.parseResp (parsePipeline env req).2.2 none] ∧
    (parsePipeline env req).2.2.length = (parsePipeline env req).1.length := by
  refine ⟨rfl, ?_⟩
  simp [parsePipeline]

/-- **C3, counterexample.** The claim "every element of `parts` is
highlightable" fails on the code: a level-0 comment whose first processed
part is a heading keeps that heading in `parts`
(`CommentSkeleton.js` lines 147–150 splice only when the level is
nonzero), and headings are never highlightable.  Concretely, the
heading-led comment is emitted with `parts.all highlightable = false`. -/
theorem c3_counterexample :
    (okComment (mkComment headedParser sampleGlobals 0 sampleSignature)).map
        (fun c => c.parts.all
          (fun p => isHighlightable sampleGlobals.unhighlightableElementsClasses p.node)) =
      some false ∧
    (okComment (mkComment headedParser sampleGlobals 0 sampleSignature)).map
        (fun c => c.parts.isEmpty) = some false :=
  ⟨rfl, rfl⟩

/-- **C3, amended.** For every emitted CommentRecord, the parts list is
non-empty and the comment has at least one highlightable element, each of
which is highlightable (not a heading element, carrying none of the
configured unhighlightable classes, and without an explicit float style);
a comment in which no fragment qualifies produces no record at all. -/
theorem c3_parts_nonempty_highlightable (parser : Parser) (g : Globals)
    (n : Nat) (sig : Signature) :
    (∀ c, mkComment parser g n sig = .ok c →
      c.parts ≠ [] ∧ c.highlightables ≠ [] ∧
      ∀ el ∈ c.highlightables,
        isHighlightable g.unhighlightableElementsClasses el = true) ∧
    (processedHighlightables parser g sig = [] →
      mkComment parser g n sig = .error .cdError) := by
  constructor
  · intro c hok
    obtain ⟨h0, hrest, p0, hH, hp, hhl, hlev, hparts, hels, hfh, hne⟩ :=
      mkComment_ok_main parser g n sig c hok
    refine ⟨hne, by rw [hhl]; exact List.cons_ne_nil h0 hrest, ?_⟩
    intro el hel
    rw [hhl, ← hH] at hel
    exact (List.mem_filter.mp hel).2
  · exact mkComment_error_of_no_highlightables parser g n sig

/-- Witness for C3 (amended): the emitted heading-led comment has
non-empty parts and non-empty highlightables. -/
theorem c3_witness :
    headedComment.parts ≠ [] ∧ headedComment.highlightables ≠ [] := by
  have h := (c3_parts_nonempty_highlightable headedParser sampleGlobals 0
    sampleSignature).1 headedComment (by rfl)
  exact ⟨h.1, h.2.1⟩

/-- **C4, counterexample.** The claim has the splice condition backwards:
on the code (`CommentSkeleton.js` lines 147–150) a level-0 comment KEEPS
its leading heading fragment, and a comment at a nonzero level DROPS it.
Both concrete runs contradict the claim as stated. -/
theorem c4_counterexample :
    (okComment (mkComment headedParser sampleGlobals 0 sampleSignature)).map
        (fun c => (c.level, c.parts.map (fun p => p.isHeading))) =
      some (0, [true, false]) ∧
    (okComment (mkComment headedParser1 sampleGlobals 0 sampleSignature)).map
        (fun c => (c.level, c.parts.map (fun p => p.isHeading))) =
      some (1, [false]) :=
  ⟨rfl, rfl⟩

/-- **C4, amended.** For every constructed comment whose first processed
part is a heading fragment: `followsHeading` is true; if the comment's
level is 0 the heading fragment is KEPT in the comment's own parts and
elements; at a nonzero level it is dropped. -/
theorem c4_heading_kept_iff_level_zero (parser : Parser) (g : Globals)
    (n : Nat) (sig : Signature) (c : Comment) (p0 : Part)
    (hok : mkComment parser g n sig = .ok c)
    (hp : (processedParts parser sig).head? = some p0)
    (hh : p0.isHeading = true) :
    c.followsHeading = true ∧
    (c.level = 0 → c.parts = processedParts parser sig ∧
      c.elements = processedElements parser sig) ∧
    (c.level ≠ 0 → c.parts = (processedParts parser sig).drop 1 ∧
      c.elements = (processedElements parser sig).drop 1) := by
  obtain ⟨h0, hrest, p0w, hH, hpw, hhl, hlev, hparts, hels, hfh, hne⟩ :=
    mkComment_ok_main parser g n sig c hok
  rw [hpw] at hp
  injection hp with hp0
  subst hp0
  refine ⟨hfh, ?_, ?_⟩
  · intro h0lev
    rw [hlev] at h0lev
    rw [hparts, hels, splicedParts, splicedElements, h0lev]
    simp
  · intro hnz
    rw [hlev] at hnz
    rw [hparts, hels, splicedParts, splicedElements]
    simp [hh, hnz]

/-- Witness for C4 (amended): the concrete level-0 heading-led comment has
`followsHeading = true` and keeps all processed parts. -/
theorem c4_witness :
    headedComment.followsHeading = true ∧
    headedComment.parts = processedParts headedParser sampleSignature := by
  have h := c4_heading_kept_iff_level_zero headedParser sampleGlobals 0
    sampleSignature headedComment headingPart (by rfl) (by rfl) (by rfl)
  exact ⟨h.1, (h.2.1 (by rfl)).1⟩

/-- **C5.** The claim says `followsHeading` is true iff the parts list
begins with a heading fragment.  On the code it is assigned `true` in both
branches (`CommentSkeleton.js` lines 145 and 152), contradicting the
field's own documentation and the spec: a comment whose single part is a
plain paragraph is emitted with `followsHeading = true`. -/
theorem c5_followsHeading_always_true :
    (okComment (mkComment plainParser sampleGlobals 0 sampleSignature)).map
        (fun c => (c.followsHeading, c.parts.map (fun p => p.isHeading))) =
      some (true, [false]) :=
  rfl

/-- **C6.** For every constructed comment, its level equals the minimum of
the number of qualifying indentation-container ancestors found by walking
up from the comment's top (first highlightable) fragment and the number
found by walking up from its bottom (last highlightable) fragment, where
for a single-element comment the bottom walk is the top walk
(`CommentSkeleton.js` lines 192–207). -/
theorem c6_level_is_min_of_walks (parser : Parser) (g : Globals) (n : Nat)
    (sig : Signature) (c : Comment) (h0 : Element) (hrest : List Element)
    (hok : mkComment parser g n sig = .ok c)
    (hhl : processedHighlightables parser g sig = h0 :: hrest) :
    c.level = min (parser.getLevelsUpTree h0 "top").length
      (if (processedElements parser sig).length > 1
        then (parser.getLevelsUpTree ((h0 :: hrest).getLastD h0) "bottom").length
        else (parser.getLevelsUpTree h0 "top").length) := by
  obtain ⟨h0w, hrestw, p0, hH, hp, hhlc, hlev, hparts, hels, hfh, hne⟩ :=
    mkComment_ok_main parser g n sig c hok
  rw [hhl] at hH
  injection hH with e1 e2
  subst e1
  subst e2
  rw [hlev]
  unfold commentLevel topWalk bottomWalk
  rw [apply_ite List.length]
  rfl

/-- Witness for C6: a comment whose top walk finds two indentation
containers and whose bottom walk finds one is assigned level
`min 2 1 = 1`. -/
theorem c6_witness : skewedComment.level = min 2 1 := by
  have h := c6_level_is_min_of_walks skewedParser sampleGlobals 0
    sampleSignature skewedComment sampleParagraph [sampleParagraph]
    (by rfl) (by rfl)
  exact h

/-- Specification of a successful `getSection` lookup: the returned
section contains the comment, occurs in the sections list, and no section
created after it contains the comment. -/
theorem getSection_some_spec (c : Comment) :
    ∀ (sections : List Section) (s : Section), getSection sections c = some s →
      c.id ∈ s.comments ∧
      ∃ i, ∃ hi : i < sections.length, sections.get ⟨i, hi⟩ = s ∧
        ∀ j, ∀ hj : j < sections.length, i < j →
          c.id ∉ (sections.get ⟨j, hj⟩).comments := by
  intro sections
  induction sections using List.reverseRecOn with
  | nil => intro s hs; simp [getSection] at hs
  | append_singleton l b ih =>
    intro s hs
    unfold getSection at hs
    rw [List.reverse_append, List.reverse_singleton, List.singleton_append] at hs
    by_cases hb : (b.comments.contains c.id) = true
    · simp only [List.find?, hb] at hs
      injection hs with hsb
      subst hsb
      refine ⟨by simpa using hb, l.length, by simp, ?_, ?_⟩
      · simp only [List.get_eq_getElem]
        exact List.getElem_concat_length l b _ rfl _
      · intro j hj hlt
        simp only [List.length_append, List.length_singleton] at hj
        omega
    · have hb2 : (b.comments.contains c.id) = false := by
        simpa using hb
      simp only [List.find?, hb2] at hs
      obtain ⟨hmem, i, hi, hget, hlater⟩ := ih s hs
      refine ⟨hmem, i, ?_, ?_, ?_⟩
      · simp only [List.length_append, List.length_singleton]
        omega
      · simp only [List.get_eq_getElem]
        rw [List.getElem_append_left hi]
        simpa only [List.get_eq_getElem] using hget
      · intro j hj hij
        simp only [List.length_append, List.length_singleton] at hj
        rcases Nat.lt_or_ge j l.length with hjl | hjg
        · have hres := hlater j hjl hij
          simp only [List.get_eq_getElem] at hres ⊢
          rw [List.getElem_append_left hjl]
          exact hres
        · have hj2 : j = l.length := by omega
          subst hj2
          simp only [List.get_eq_getElem]
          rw [List.getElem_concat_length l b _ rfl _]
          intro hmem2
          exact hb (by simpa using hmem2)

/-- **C7.** For every comment, the enclosing-section lookup returns the
most recently created section whose comment list contains that comment
(sections searched in reverse creation order, first match returned), and
returns null when no section's comment list contains it
(`CommentSkeleton.js` lines 224–232). -/
theorem c7_enclosing_section_lookup (sections : List Section) (c : Comment) :
    (getSection sections c = none ↔ ∀ s ∈ sections, c.id ∉ s.comments) ∧
    (∀ s, getSection sections c = some s →
      c.id ∈ s.comments ∧
      ∃ i, ∃ hi : i < sections.length, sections.get ⟨i, hi⟩ = s ∧
        ∀ j, ∀ hj : j < sections.length, i < j →
          c.id ∉ (sections.get ⟨j, hj⟩).comments) := by
  constructor
  · simp only [getSection, List.find?_eq_none, List.mem_reverse]
    constructor
    · intro h s hs hmem
      exact h s hs (by simpa using hmem)
    · intro h s hs hc
      exact h s hs (by simpa using hc)
  · exact getSection_some_spec c sections

/-- Witness for C7: among three sections where the first two contain
comment 3, the lookup returns the second (the most recently created
match), which indeed contains the comment. -/
theorem c7_witness :
    getSection lookupSections lookupComment = some sectionB ∧
    lookupComment.id ∈ sectionB.comments := by
  have h := (c7_enclosing_section_lookup lookupSections lookupComment).2
    sectionB (by rfl)
  exact ⟨by rfl, h.1⟩

/-- **C9.** Parsing the same markup with the same configuration twice — in
the same worker instance (possibly right after the first parse) or a fresh
one — yields identical outputs and identical comment lists (hence equal
counts, order, anchors, levels and parent links), because every per-parse
state (the comments list, the sections list, the comment-anchor registry)
is reset at the start of each parse (`modal.js` lines 1298–1301): the
result of handling a parse request does not depend on the prior worker
state at all. -/
theorem c9_parse_idempotent (env : WorkerEnv) (s1 s2 : WorkerState)
    (req : ParseRequest) :
    (handleEvent env s1 (.msg (.parseReq req))).2 =
      (handleEvent env s2 (.msg (.parseReq req))).2 ∧
    (handleEvent env s1 (.msg (.parseReq req))).1.comments =
      (handleEvent env s2 (.msg (.parseReq req))).1.comments ∧
    (handleEvent env s1 (.msg (.parseReq req))).1.sections =
      (handleEvent env s2 (.msg (.parseReq req))).1.sections ∧
    (handleEvent env s1 (.msg (.parseReq req))).1.commentAnchors =
      (handleEvent env s2 (.msg (.parseReq req))).1.commentAnchors ∧
    (handleEvent env
        (handleEvent env s1 (.msg (.parseReq req))).1 (.msg (.parseReq req))).2 =
      (handleEvent env s1 (.msg (.parseReq req))).2 :=
  ⟨rfl, rfl, rfl, rfl, rfl⟩

/-- **C8.** In the emitted comments list, every comment's id equals its
index in that list — ids are consecutive integers starting from 0 in
document order — even when some signatures are skipped because their
comment construction failed. -/
theorem c8_ids_consecutive (parser : Parser) (g : Globals)
    (signatures : List Signature) (i : Nat)
    (h : i < (processSignatures parser g signatures).length) :
    ((processSignatures parser g signatures).get ⟨i, h⟩).id = i := by
  exact processSignatures_go_ids parser g signatures [] (by intro j hj; simp at hj) i h

/-- Witness for C8: a parse of three signatures whose middle one fails
produces two comments with ids 0 and 1. -/
theorem c8_witness :
    (processSignatures mixedParser sampleGlobals
        [sampleSignature, floatSignature, sampleSignature]).length = 2 ∧
    ((processSignatures mixedParser sampleGlobals
        [sampleSignature, floatSignature, sampleSignature]).get? 1).map
      (fun c => c.id) = some 1 := by
  have hlen : 1 < (processSignatures mixedParser sampleGlobals
      [sampleSignature, floatSignature, sampleSignature]).length := by decide
  have h1 := c8_ids_consecutive mixedParser sampleGlobals
    [sampleSignature, floatSignature, sampleSignature] 1 hlen
  refine ⟨by decide, ?_⟩
  rw [List.get?_eq_get hlen]
  simpa using h1

/-- `clearTimeout` keeps the fresh-handle counter. -/
theorem clearTimeoutSys_nextHandle (ts : TimerSys) (h : Option Nat) :
    (clearTimeoutSys ts h).nextHandle = ts.nextHandle := by
  cases h <;> rfl

/-- When every pending timeout carries the stored alarm handle, clearing
that handle empties the pending timeouts. -/
theorem cleared_pending_empty (ts : TimerSys) (h : Option Nat)
    (hmem : ∀ t ∈ ts.pending, h = some t.1) :
    (clearTimeoutSys ts h).pending = [] := by
  cases h with
  | none =>
    show ts.pending = []
    rcases hp : ts.pending with _ | ⟨t, rest⟩
    · rfl
    · exact absurd (hmem t (by rw [hp]; exact List.mem_cons_self t rest)) (by simp)
  | some hh =>
    show ts.pending.filter (fun t => decide (t.1 ≠ hh)) = []
    rw [List.filter_eq_nil_iff]
    intro t ht
    have hv := hmem t ht
    injection hv with hv2
    simp [hv2]

/-- Clearing the same handle twice is the same as clearing it once. -/
theorem clearTimeoutSys_idem (ts : TimerSys) (h : Option Nat) :
    clearTimeoutSys (clearTimeoutSys ts h) h = clearTimeoutSys ts h := by
  cases h with
  | none => rfl
  | some hh =>
    show TimerSys.mk ts.nextHandle
        ((ts.pending.filter (fun t => decide (t.1 ≠ hh))).filter
          (fun t => decide (t.1 ≠ hh)))
      = TimerSys.mk ts.nextHandle (ts.pending.filter (fun t => decide (t.1 ≠ hh)))
    rw [List.filter_filter]
    simp

/-- `setAlarm` under the alarm invariant: the previously armed timeout is
cancelled, and afterwards exactly the newly armed timeout is pending, its
handle stored in `alarmTimeout` (`modal.js` lines 1286–1291). -/
theorem setAlarm_state (env : WorkerEnv) (s : WorkerState) (interval : Nat)
    (h : AlarmInv s) :
    (handleEvent env s (.msg (.setAlarm interval))).1.timers.pending
        = [(s.timers.nextHandle, interval)] ∧
    (handleEvent env s (.msg (.setAlarm interval))).1.alarmTimeout
        = some s.timers.nextHandle := by
  constructor
  · show (clearTimeoutSys s.timers s.alarmTimeout).pending ++
        [((clearTimeoutSys s.timers s.alarmTimeout).nextHandle, interval)]
      = [(s.timers.nextHandle, interval)]
    rw [cleared_pending_empty s.timers s.alarmTimeout h.2,
      clearTimeoutSys_nextHandle]
    rfl
  · show some (clearTimeoutSys s.timers s.alarmTimeout).nextHandle
        = some s.timers.nextHandle
    rw [clearTimeoutSys_nextHandle]

/-- Every worker step preserves the alarm invariant. -/
theorem alarmInv_step (env : WorkerEnv) (s : WorkerState) (ev : WorkerEvent)
    (h : AlarmInv s) : AlarmInv (handleEvent env s ev).1 := by
  obtain ⟨hlen, hmem⟩ := h
  cases ev with
  | timerFire hId =>
    by_cases hp : s.timers.pending.any (fun t => t.1 == hId) <;>
      simp only [handleEvent, hp, if_true, if_false]
    · constructor
      · exact le_trans (List.length_filter_le _ _) hlen
      · intro t ht
        exact hmem t (List.mem_of_mem_filter ht)
    · exact ⟨hlen, hmem⟩
  | msg m =>
    cases m with
    | setAlarm interval =>
      obtain ⟨hpend, halarm⟩ := setAlarm_state env s interval ⟨hlen, hmem⟩
      rw [AlarmInv, hpend, halarm]
      refine ⟨by simp, ?_⟩
      intro t ht
      rw [List.mem_singleton] at ht
      subst ht
      rfl
    | removeAlarm =>
      constructor
      · show (clearTimeoutSys s.timers s.alarmTimeout).pending.length ≤ 1
        rw [cleared_pending_empty s.timers s.alarmTimeout hmem]
        simp
      · intro t ht
        have ht2 : t ∈ (clearTimeoutSys s.timers s.alarmTimeout).pending := ht
        rw [cleared_pending_empty s.timers s.alarmTimeout hmem] at ht2
        exact absurd ht2 (List.not_mem_nil t)
    | parseReq req => exact ⟨hlen, hmem⟩

/-- The alarm invariant holds along any run. -/
theorem alarmInv_run (env : WorkerEnv) (evs : List WorkerEvent) :
    ∀ s : WorkerState, AlarmInv s → AlarmInv (runWorker env s evs).1 := by
  induction evs with
  | nil => intro s h; exact h
  | cons ev evs ih =>
    intro s h
    exact ih (handleEvent env s ev).1 (alarmInv_step env s ev h)

/-- One worker step is determined, in its outputs and its resulting alarm
components, by the alarm components of the state alone: the per-parse
collections, the globals bundle and the `firstRun` latch do not influence
any posted message. -/
theorem step_alarm_determined (env : WorkerEnv) (s1 s2 : WorkerState)
    (ev : WorkerEvent) (ht : s1.timers = s2.timers)
    (ha : s1.alarmTimeout = s2.alarmTimeout) :
    (handleEvent env s1 ev).2 = (handleEvent env s2 ev).2 ∧
    (handleEvent env s1 ev).1.timers = (handleEvent env s2 ev).1.timers ∧
    (handleEvent env s1 ev).1.alarmTimeout =
      (handleEvent env s2 ev).1.alarmTimeout := by
  cases ev with
  | timerFire hId =>
    by_cases hc : s2.timers.pending.any (fun t => t.1 == hId) <;>
      simp [handleEvent, ht, ha, hc]
  | msg m =>
    cases m with
    | setAlarm interval => simp [handleEvent, ht, ha]
    | removeAlarm => simp [handleEvent, ht, ha]
    | parseReq req => simp [handleEvent, ht, ha]

/-- A whole run's output stream is determined by the starting alarm
components. -/
theorem run_alarm_determined (env : WorkerEnv) (evs : List WorkerEvent) :
    ∀ s1 s2 : WorkerState, s1.timers = s2.timers →
      s1.alarmTimeout = s2.alarmTimeout →
      (runWorker env s1 evs).2 = (runWorker env s2 evs).2 := by
  induction evs with
  | nil => intro s1 s2 ht ha; rfl
  | cons ev evs ih =>
    intro s1 s2 ht ha
    obtain ⟨ho, ht2, ha2⟩ := step_alarm_determined env s1 s2 ev ht ha
    simp only [runWorker]
    rw [ho, ih _ _ ht2 ha2]

/-- **C10.** After any sequence of messages, at most one wake-up alarm is
pending in the worker; `setAlarm` cancels any previously armed alarm
before arming a new one, leaving exactly the new timeout pending;
`removeAlarm` cancels the pending alarm; both operations are idempotent
(`setAlarm` on the pending intervals — the fresh timer handle differs —
and `removeAlarm` exactly); and the alarm timer is the only worker-side
state that survives across parses observably: the entire output stream of
any run is a function of the starting alarm components alone, every other
state component being reset or overwritten before it is read. -/
theorem c10_alarm_protocol (env : WorkerEnv) :
    (∀ evs, ((runWorker env initState evs).1).timers.pending.length ≤ 1) ∧
    (∀ s interval, AlarmInv s →
      (handleEvent env s (.msg (.setAlarm interval))).1.timers.pending
          = [(s.timers.nextHandle, interval)] ∧
      (handleEvent env s (.msg (.setAlarm interval))).1.alarmTimeout
          = some s.timers.nextHandle) ∧
    (∀ s interval, AlarmInv s →
      ((handleEvent env (handleEvent env s (.msg (.setAlarm interval))).1
          (.msg (.setAlarm interval))).1.timers.pending.map (fun t => t.2))
        = ((handleEvent env s
            (.msg (.setAlarm interval))).1.timers.pending.map (fun t => t.2))) ∧
    (∀ s, AlarmInv s →
      (handleEvent env s (.msg .removeAlarm)).1.timers.pending = []) ∧
    (∀ s, (handleEvent env (handleEvent env s (.msg .removeAlarm)).1
        (.msg .removeAlarm)).1 = (handleEvent env s (.msg .removeAlarm)).1) ∧
    (∀ s evs, (runWorker env s evs).2 =
      (runWorker env
        { initState with
            timers := s.timers
            alarmTimeout := s.alarmTimeout } evs).2) := by
  refine ⟨?_, ?_, ?_, ?_, ?_, ?_⟩
  · intro evs
    exact (alarmInv_run env evs initState (by decide)).1
  · intro s interval h
    exact setAlarm_state env s interval h
  · intro s interval h
    obtain ⟨hp1, ha1⟩ := setAlarm_state env s interval h
    obtain ⟨hp2, ha2⟩ := setAlarm_state env
      (handleEvent env s (.msg (.setAlarm interval))).1 interval
      (alarmInv_step env s (.msg (.setAlarm interval)) h)
    rw [hp1, hp2]
    simp
  · intro s h
    exact cleared_pending_empty s.timers s.alarmTimeout h.2
  · intro s
    show ({ s with
        firstRun := false
        timers := clearTimeoutSys (clearTimeoutSys s.timers s.alarmTimeout)
          s.alarmTimeout } : WorkerState)
      = { s with
          firstRun := false
          timers := clearTimeoutSys s.timers s.alarmTimeout }
    rw [clearTimeoutSys_idem]
  · intro s evs
    exact run_alarm_determined env evs s
      { initState with
          timers := s.timers
          alarmTimeout := s.alarmTimeout }
      rfl rfl

/-- Witness for C10: from the fresh worker state the invariant holds by
computation; after arming the alarm twice and removing it, at most one
timeout is pending; and a single `setAlarm 5` leaves exactly the timeout
with handle 0 and interval 5 pending. -/
theorem c10_witness :
    AlarmInv initState ∧
    (runWorker emptyEnv initState
      [.msg (.setAlarm 5), .msg (.setAlarm 7),
        .msg .removeAlarm]).1.timers.pending.length ≤ 1 ∧
    (handleEvent emptyEnv initState
      (.msg (.setAlarm 5))).1.timers.pending = [(0, 5)] := by
  refine ⟨by decide, ?_, ?_⟩
  · exact (c10_alarm_protocol emptyEnv).1
      [.msg (.setAlarm 5), .msg (.setAlarm 7), .msg .removeAlarm]
  · exact ((c10_alarm_protocol emptyEnv).2.1 initState 5 (by decide)).1

end CD
